import Mathlib

/-!
Verification development for the CUDA memory test tool
(src/gcm/health_checks/cuda/cudaMemTest.c).

The C program is shallowly embedded below.  Character strings become
`List Char`; `size_t` arithmetic is `Nat` reduced modulo `2 ^ 64` where
the C program can overflow; `int` values are `Int`; the CUDA runtime is
an explicit environment of call outcomes, and the program is a pure
function from that environment and the argument vector to an exit code,
the two output streams, and the trace of runtime calls attempted.

The expression `(size_t)(0.1 * free_memory)` is modelled exactly: the
conversion of `free_memory` to IEEE-754 binary64, the multiplication by
the double literal `0.1` (whose exact value is `7205759403792794 / 2^56`)
with round-to-nearest-ties-to-even, and the truncation toward zero, are
all carried out in exact dyadic arithmetic.
-/

set_option maxRecDepth 16384

namespace CudaMemTest

/-! ## Argument lexer (stringRemoveDelimiter, checkCmdLineFlag, getCmdLineArgumentInt) -/

/-- Number of leading occurrences of `d` at the front of `s`
(the `while` loop of `stringRemoveDelimiter`). -/
def countLeading (d : Char) : List Char → Nat
  | [] => 0
  | c :: cs => if c = d then countLeading d cs + 1 else 0

/-- C function stringRemoveDelimiter: strips leading delimiters,
but returns 0 (no stripping) when `string_start >= strlen(string) - 1`. -/
def stringRemoveDelimiter (d : Char) (s : List Char) : Nat :=
  let start := countLeading d s
  if s.length - 1 ≤ start then 0 else start

/-- Position of the first `'='` in `s`, if any (C `strchr(s, '=')`). -/
def indexOfEq : List Char → Option Nat
  | [] => none
  | c :: cs => if c = '=' then some 0 else (indexOfEq cs).map (· + 1)

/-- Truth of `strncasecmp(s1, s2, n) == 0` for NUL-free C strings: the
first `n` characters agree case-insensitively, treating the end of
either string as a mismatch unless both end together. -/
def strncaseEq (s1 s2 : List Char) (n : Nat) : Bool :=
  (s1.take n).map Char.toLower == (s2.take n).map Char.toLower

/-- C function checkCmdLineFlag: some argument, after delimiter
stripping, matches `ref` case-insensitively with exact length up to an
optional `'='`. -/
def checkCmdLineFlag (args : List (List Char)) (ref : List Char) : Bool :=
  args.any fun arg =>
    let start := stringRemoveDelimiter '-' arg
    let sArgv := arg.drop start
    let argvLength := match indexOfEq sArgv with
      | none => sArgv.length
      | some p => p
    ref.length == argvLength && strncaseEq sArgv ref ref.length

/-- C `isspace` on the default locale (the characters `atoi` skips). -/
def isSpaceChar (c : Char) : Bool :=
  c = ' ' || c = '\t' || c = '\n' || c = Char.ofNat 11 || c = Char.ofNat 12 || c = '\r'

/-- Value of a digit string (most significant first). -/
def digitsVal (l : List Char) : Nat :=
  l.foldl (fun a c => a * 10 + (c.toNat - 48)) 0

/-- C `atoi`: skip leading whitespace, optional sign, then a maximal run
of decimal digits (0 if there are none). -/
def atoi (s : List Char) : Int :=
  let s1 := s.dropWhile isSpaceChar
  match s1 with
  | '-' :: rest => -(digitsVal (rest.takeWhile Char.isDigit) : Int)
  | '+' :: rest => (digitsVal (rest.takeWhile Char.isDigit) : Int)
  | _ => (digitsVal (s1.takeWhile Char.isDigit) : Int)

/-- The per-argument state update of `getCmdLineArgumentInt`'s loop:
on a case-insensitive prefix match of `ref`, record found and overwrite
the value; otherwise keep the accumulator. -/
def getIntStep (ref : List Char) (acc : Bool × Int) (arg : List Char) : Bool × Int :=
  let start := stringRemoveDelimiter '-' arg
  let sArgv := arg.drop start
  let length := ref.length
  if strncaseEq sArgv ref length then
    let value :=
      if length + 1 ≤ sArgv.length then
        let inc := if sArgv.get? length == some '=' then 1 else 0
        atoi (sArgv.drop (length + inc))
      else 0
    (true, value)
  else acc

/-- C function getCmdLineArgumentInt: scan all arguments, the last
prefix match wins; return 0 when the flag was never found. -/
def getCmdLineArgumentInt (args : List (List Char)) (ref : List Char) : Int :=
  let r := args.foldl (getIntStep ref) (false, -1)
  if r.1 then r.2 else 0

/-! ## Exact model of the IEEE-754 binary64 computation `(size_t)(0.1 * free)` -/

/-- Bit length of `a` computed with explicit fuel (sufficient for every
value below `2 ^ fuel`). -/
def bitLenAux : Nat → Nat → Nat
  | 0, _ => 0
  | f + 1, a => if a = 0 then 0 else bitLenAux f (a / 2) + 1

/-- Bit length of `a` (valid for `a < 2 ^ 128`, which covers every value
arising in this program). -/
def bitLen (a : Nat) : Nat := bitLenAux 128 a

/-- Round `a` to a multiple of `2 ^ t`, expressed on the quotient:
round half to even. -/
def roundHalfEven (a t : Nat) : Nat :=
  let q := a / 2 ^ t
  let r := a % 2 ^ t
  let half := 2 ^ t / 2
  if half < r then q + 1
  else if r < half then q
  else if q % 2 = 0 then q else q + 1

/-- Round the natural number `a` to 53 significant bits, ties to even:
this is IEEE-754 binary64 rounding of the real number `a` scaled by any
fixed power of two, within the normal range. -/
def roundSig53 (a : Nat) : Nat :=
  if bitLen a ≤ 53 then a
  else roundHalfEven a (bitLen a - 53) * 2 ^ (bitLen a - 53)

/-- Significand of the double literal `0.1`:
`(double)0.1 = 7205759403792794 / 2 ^ 56` exactly. -/
def pointOneNum : Nat := 7205759403792794

/-- The C expression `(size_t)(0.1 * free_memory)` computed exactly:
convert `free` to double (round to 53 significant bits), multiply by the
double `0.1` with correct rounding, truncate toward zero. -/
def pointOneTimesTrunc (free : Nat) : Nat :=
  let fd := roundSig53 free
  let pd := roundSig53 (fd * pointOneNum)
  pd / 2 ^ 56

/-! ## Allocation policy (lines 134-151 of the C source) -/

/-- The `size_t` value of the parsed `int` (C conversion `int` to
`size_t` is reduction modulo `2 ^ 64`). -/
def intToSize (g : Int) : Nat := (g % (2 ^ 64 : Int)).toNat

/-- Requested byte count from the gigabyte count already converted to
`size_t`: a zero count defaults to 1, then `* 1000 * 1000 * 1000` in
`size_t` arithmetic. -/
def sizeOfGb (a0 : Nat) : Nat :=
  (if a0 = 0 then 1 else a0) * 1000000000 % 2 ^ 64

/-- Ceiling `max_alloc_size = free_memory - (size_t)(0.1 * free_memory)`
in `size_t` arithmetic (subtraction modulo `2 ^ 64`). -/
def max_alloc_size (free : Nat) : Nat :=
  (free + 2 ^ 64 - pointOneTimesTrunc free) % 2 ^ 64

/-- The clamp of lines 148-151: replace the request by `max_alloc_size`
when it exceeds it. -/
def clampSize (requested free : Nat) : Nat :=
  if max_alloc_size free < requested then max_alloc_size free else requested

/-- Requested size before clamping, as `main` computes it: default
`1 * 1000 * 1000 * 1000`, overridden when the `alloc_mem_gb` flag is
present by the parsed (and zero-defaulted) gigabyte count. -/
def requestedPre (args : List (List Char)) : Nat :=
  if checkCmdLineFlag args "alloc_mem_gb".toList then
    sizeOfGb (intToSize (getCmdLineArgumentInt args "alloc_mem_gb".toList))
  else 1000000000

/-- Effective allocation size for a parsed gigabyte count `gb` and a
free-memory snapshot `free` (the composition the spec calls the
allocation policy). -/
def effectiveSize (gb : Int) (free : Nat) : Nat :=
  clampSize (sizeOfGb (intToSize gb)) free

/-! ## Diagnostic runner (main) -/

/-- One runtime call attempted by the program, in program order. -/
inductive Step where
  | setDevice (id : Int)
  | memGetInfo
  | malloc (bytes : Nat)
  | memset (bytes : Nat)
  | free
deriving DecidableEq, Repr

/-- One line printed to standard output (each constructor is one
`printf` of the C source). -/
inductive OutLine where
  | toolBanner
  | usageDeviceComma
  | usageDevice
  | usageAlloc
  | invalidDevice
  | memReport (free total : Nat)
  | allocReport (gb : Nat)
  | clampNotice (bytes : Nat)
  | passed
deriving DecidableEq, Repr

/-- Rendering of a `size_t` value under `%ld`: reinterpreted as a
signed 64-bit integer. -/
def fmtLd (n : Nat) : String :=
  if n < 2 ^ 63 then toString n else "-" ++ toString (2 ^ 64 - n)

/-- Exact text of a standard-output line (the `printf` format strings of
the C source, without the trailing newline). -/
def OutLine.render : OutLine → String
  | toolBanner => "A simple cuda memory testing tool"
  | usageDeviceComma => "Usage --device=n (n >= 0 for deviceID),"
  | usageDevice => "Usage --device=n (n >= 0 for deviceID)"
  | usageAlloc => "      --alloc_mem_gb=k (allocates k GB)"
  | invalidDevice => "Invalid device id or device already in use"
  | memReport f t => "free mem " ++ fmtLd f ++ " total mem " ++ fmtLd t ++ " "
  | allocReport g => "alloc " ++ fmtLd g ++ " "
  | clampNotice b => "Invalid allocation amount specified, using " ++ toString b
  | passed => "CUDA memory test PASSED"

/-- One line printed to standard error (each constructor is one
`fprintf(stderr, ...)` of the C source), carrying the runtime's error
description. -/
inductive ErrLine where
  | allocFail (desc : String)
  | fillFail (desc : String)
  | freeFail (desc : String)
deriving DecidableEq, Repr

/-- Exact text of a standard-error line. -/
def ErrLine.render : ErrLine → String
  | allocFail d => "Test failed (error code " ++ d ++ ")!"
  | fillFail d => "Test failed in setting mem(error code " ++ d ++ ")!"
  | freeFail d => "Failed to free device vector A (error code " ++ d ++ ")!"

/-- Outcomes of the CUDA runtime calls the program may issue.
`memInfoFree`/`memInfoTotal` are the values left in `free_memory` and
`total_memory` after `cudaMemGetInfo` returns: the reported snapshot on
success, and the arbitrary (uninitialized) contents on failure. -/
structure CudaEnv where
  setDeviceOk : Int → Bool
  memInfoOk : Bool
  memInfoFree : Nat
  memInfoTotal : Nat
  mallocOk : Nat → Bool
  mallocErrDesc : String
  memsetOk : Bool
  memsetErrDesc : String
  freeOk : Bool
  freeErrDesc : String

/-- Observable result of one run: exit code, the two output streams, and
the trace of runtime calls attempted, in order. -/
structure RunResult where
  exit : Nat
  stdout : List OutLine
  stderr : List ErrLine
  steps : List Step
deriving DecidableEq, Repr

/-- The diagnostic sequence after a `--device` flag was found: select
the device, query memory (non-fatally), compute and clamp the size,
allocate, fill, free (lines 112-190 of the C source). -/
def runDiag (env : CudaEnv) (args : List (List Char)) (devID : Int) : RunResult :=
  if env.setDeviceOk devID then
    let freeMem := env.memInfoFree % 2 ^ 64
    let totalMem := env.memInfoTotal % 2 ^ 64
    let memLine : List OutLine :=
      if env.memInfoOk then [OutLine.memReport freeMem totalMem] else []
    let allocLine : List OutLine :=
      if checkCmdLineFlag args "alloc_mem_gb".toList then
        [OutLine.allocReport (intToSize (getCmdLineArgumentInt args "alloc_mem_gb".toList))]
      else []
    let requested0 := requestedPre args
    let maxA := max_alloc_size freeMem
    let clampLine : List OutLine :=
      if maxA < requested0 then [OutLine.clampNotice maxA] else []
    let requested := clampSize requested0 freeMem
    let pre := memLine ++ allocLine ++ clampLine
    if env.mallocOk requested then
      if env.memsetOk then
        if env.freeOk then
          { exit := 0, stdout := pre ++ [OutLine.passed], stderr := [],
            steps := [Step.setDevice devID, Step.memGetInfo, Step.malloc requested,
                      Step.memset requested, Step.free] }
        else
          { exit := 1, stdout := pre, stderr := [ErrLine.freeFail env.freeErrDesc],
            steps := [Step.setDevice devID, Step.memGetInfo, Step.malloc requested,
                      Step.memset requested, Step.free] }
      else
        { exit := 1, stdout := pre, stderr := [ErrLine.fillFail env.memsetErrDesc],
          steps := [Step.setDevice devID, Step.memGetInfo, Step.malloc requested,
                    Step.memset requested] }
    else
      { exit := 1, stdout := pre, stderr := [ErrLine.allocFail env.mallocErrDesc],
        steps := [Step.setDevice devID, Step.memGetInfo, Step.malloc requested] }
  else
    { exit := 1, stdout := [OutLine.invalidDevice], stderr := [],
      steps := [Step.setDevice devID] }

/-- Embedding of `main` from the C source: help flags short-circuit to
usage; a missing `device` flag short-circuits to usage; otherwise run
the diagnostic on the parsed device id. -/
def runMain (env : CudaEnv) (args : List (List Char)) : RunResult :=
  if checkCmdLineFlag args "help".toList || checkCmdLineFlag args "?".toList then
    { exit := 0, stdout := [OutLine.toolBanner, OutLine.usageDeviceComma, OutLine.usageAlloc],
      stderr := [], steps := [] }
  else if checkCmdLineFlag args "device".toList then
    runDiag env args (getCmdLineArgumentInt args "device".toList)
  else
    { exit := 0, stdout := [OutLine.toolBanner, OutLine.usageDevice, OutLine.usageAlloc],
      stderr := [], steps := [] }

/-! ## Concrete argument vectors and environments used as test inputs -/

/-- Convert a list of string literals to an argument vector. -/
def argv (l : List String) : List (List Char) := l.map String.toList

/-- An environment in which every runtime call succeeds and the device
reports 10^10 free bytes. -/
def envOK : CudaEnv :=
  { setDeviceOk := fun _ => true, memInfoOk := true,
    memInfoFree := 10 ^ 10, memInfoTotal := 2 * 10 ^ 10,
    mallocOk := fun _ => true, mallocErrDesc := "out of memory",
    memsetOk := true, memsetErrDesc := "invalid value",
    freeOk := true, freeErrDesc := "invalid value" }

/-- An environment in which device selection fails. -/
def envBadDevice : CudaEnv :=
  { envOK with setDeviceOk := fun _ => false }

/-- An environment in which the memory query fails, leaving garbage
`g` in `free_memory`. -/
def envMemFail (g : Nat) : CudaEnv :=
  { envOK with memInfoOk := false, memInfoFree := g, memInfoTotal := 0 }

end CudaMemTest

namespace CudaMemTest

/-! ## Arithmetic lemmas about the rounding model -/

theorem bitLenAux_zero (f : Nat) : bitLenAux f 0 = 0 := by
  cases f <;> simp [bitLenAux]

theorem bitLenAux_spec (f : Nat) : ∀ a : Nat, a < 2 ^ f →
    a < 2 ^ bitLenAux f a ∧ (a ≠ 0 → 2 ^ (bitLenAux f a - 1) ≤ a) := by
  induction f with
  | zero =>
    intro a ha
    have h0 : a = 0 := by omega
    subst h0
    simp [bitLenAux_zero]
  | succ f ih =>
    intro a ha
    by_cases h0 : a = 0
    · subst h0; simp [bitLenAux_zero]
    · have hd : a / 2 < 2 ^ f := by
        have h2 : (2 : Nat) ^ (f + 1) = 2 ^ f * 2 := by ring
        rw [Nat.div_lt_iff_lt_mul (by norm_num)]
        omega
      obtain ⟨ih1, ih2⟩ := ih (a / 2) hd
      have hb : bitLenAux (f + 1) a = bitLenAux f (a / 2) + 1 := by
        simp [bitLenAux, h0]
      rw [hb]
      constructor
      · have hp : (2 : Nat) ^ (bitLenAux f (a / 2) + 1) = 2 ^ bitLenAux f (a / 2) * 2 := by ring
        rw [hp]
        omega
      · intro _
        by_cases hq : a / 2 = 0
        · have ha1 : a = 1 := by omega
          rw [hq, bitLenAux_zero]
          simp [ha1]
        · have hge : 1 ≤ bitLenAux f (a / 2) := by
            by_contra hlt
            have : bitLenAux f (a / 2) = 0 := by omega
            rw [this] at ih1
            simp at ih1
            omega
          have he : bitLenAux f (a / 2) + 1 - 1 = (bitLenAux f (a / 2) - 1) + 1 := by omega
          have h2 := ih2 hq
          rw [he, pow_succ]
          omega

theorem bitLen_lt (a : Nat) (ha : a < 2 ^ 128) : a < 2 ^ bitLen a :=
  (bitLenAux_spec 128 a ha).1

theorem bitLen_le (a : Nat) (ha : a < 2 ^ 128) (h0 : a ≠ 0) : 2 ^ (bitLen a - 1) ≤ a :=
  (bitLenAux_spec 128 a ha).2 h0

theorem roundHalfEven_le (a t : Nat) : roundHalfEven a t ≤ a / 2 ^ t + 1 := by
  simp only [roundHalfEven]
  split_ifs <;> omega

theorem roundSig53_le (a : Nat) (ha : a < 2 ^ 128) :
    roundSig53 a * 2 ^ 52 ≤ a * (2 ^ 52 + 1) := by
  unfold roundSig53
  split_ifs with h
  · exact Nat.mul_le_mul_left a (by norm_num)
  · have h0 : a ≠ 0 := by
      intro h0
      rw [h0, show bitLen 0 = 0 from bitLenAux_zero 128] at h
      omega
    have hb : 53 < bitLen a := by omega
    have h1 : roundHalfEven a (bitLen a - 53) ≤ a / 2 ^ (bitLen a - 53) + 1 :=
      roundHalfEven_le a (bitLen a - 53)
    have h2 : 2 ^ (bitLen a - 1) ≤ a := bitLen_le a ha h0
    have h3 : 2 ^ (bitLen a - 53) * 2 ^ 52 ≤ a := by
      rw [← pow_add]
      have he : bitLen a - 53 + 52 = bitLen a - 1 := by omega
      rw [he]
      exact h2
    have h4 : a / 2 ^ (bitLen a - 53) * 2 ^ (bitLen a - 53) ≤ a := Nat.div_mul_le_self a _
    calc roundHalfEven a (bitLen a - 53) * 2 ^ (bitLen a - 53) * 2 ^ 52
        ≤ (a / 2 ^ (bitLen a - 53) + 1) * 2 ^ (bitLen a - 53) * 2 ^ 52 := by
          exact Nat.mul_le_mul_right _ (Nat.mul_le_mul_right _ h1)
      _ = (a / 2 ^ (bitLen a - 53) * 2 ^ (bitLen a - 53)) * 2 ^ 52
            + 2 ^ (bitLen a - 53) * 2 ^ 52 := by ring
      _ ≤ a * 2 ^ 52 + a := Nat.add_le_add (Nat.mul_le_mul_right _ h4) h3
      _ = a * (2 ^ 52 + 1) := by ring

theorem pointOneTimesTrunc_lt (free : Nat) (h0 : 0 < free) (hu : free < 2 ^ 64) :
    pointOneTimesTrunc free < free := by
  unfold pointOneTimesTrunc pointOneNum
  have hfree128 : free < 2 ^ 128 := lt_of_lt_of_le hu (by norm_num)
  have hfd : roundSig53 free * 2 ^ 52 ≤ free * (2 ^ 52 + 1) := roundSig53_le free hfree128
  have hfd_lt : roundSig53 free < 2 ^ 66 := by
    have h1 : roundSig53 free * 2 ^ 52 < 2 ^ 66 * 2 ^ 52 := by
      calc roundSig53 free * 2 ^ 52 ≤ free * (2 ^ 52 + 1) := hfd
        _ < 2 ^ 64 * (2 ^ 52 + 1) := by
            exact (Nat.mul_lt_mul_right (by norm_num)).mpr hu
        _ < 2 ^ 66 * 2 ^ 52 := by norm_num
    exact Nat.lt_of_mul_lt_mul_right h1
  have hprod128 : roundSig53 free * 7205759403792794 < 2 ^ 128 := by
    calc roundSig53 free * 7205759403792794 < 2 ^ 66 * 7205759403792794 :=
          (Nat.mul_lt_mul_right (by norm_num)).mpr hfd_lt
      _ < 2 ^ 128 := by norm_num
  have hpd : roundSig53 (roundSig53 free * 7205759403792794) * 2 ^ 52
      ≤ roundSig53 free * 7205759403792794 * (2 ^ 52 + 1) := roundSig53_le _ hprod128
  rw [Nat.div_lt_iff_lt_mul (by norm_num : 0 < (2 : Nat) ^ 56)]
  have step1 : roundSig53 (roundSig53 free * 7205759403792794) * 2 ^ 104
      ≤ free * (7205759403792794 * (2 ^ 52 + 1) ^ 2) := by
    have e1 : roundSig53 (roundSig53 free * 7205759403792794) * 2 ^ 104
        = roundSig53 (roundSig53 free * 7205759403792794) * 2 ^ 52 * 2 ^ 52 := by ring
    rw [e1]
    calc roundSig53 (roundSig53 free * 7205759403792794) * 2 ^ 52 * 2 ^ 52
        ≤ roundSig53 free * 7205759403792794 * (2 ^ 52 + 1) * 2 ^ 52 :=
          Nat.mul_le_mul_right _ hpd
      _ = (roundSig53 free * 2 ^ 52) * (7205759403792794 * (2 ^ 52 + 1)) := by ring
      _ ≤ (free * (2 ^ 52 + 1)) * (7205759403792794 * (2 ^ 52 + 1)) :=
          Nat.mul_le_mul_right _ hfd
      _ = free * (7205759403792794 * (2 ^ 52 + 1) ^ 2) := by ring
  have step2 : free * (7205759403792794 * (2 ^ 52 + 1) ^ 2) < free * (2 ^ 160) := by
    exact (Nat.mul_lt_mul_left h0).mpr (by norm_num)
  have step3 : roundSig53 (roundSig53 free * 7205759403792794) * 2 ^ 104
      < free * 2 ^ 56 * 2 ^ 104 := by
    have e2 : free * 2 ^ 56 * 2 ^ 104 = free * 2 ^ 160 := by ring
    rw [e2]
    exact lt_of_le_of_lt step1 step2
  exact Nat.lt_of_mul_lt_mul_right step3

theorem max_alloc_size_eq (free : Nat) (h0 : 0 < free) (hu : free < 2 ^ 64) :
    max_alloc_size free = free - pointOneTimesTrunc free := by
  have hlt : pointOneTimesTrunc free < free := pointOneTimesTrunc_lt free h0 hu
  unfold max_alloc_size
  have h64 : (2 : Nat) ^ 64 = 18446744073709551616 := by norm_num
  rw [h64] at hu ⊢
  omega

theorem max_alloc_size_pos (free : Nat) (h0 : 0 < free) (hu : free < 2 ^ 64) :
    0 < max_alloc_size free := by
  rw [max_alloc_size_eq free h0 hu]
  have := pointOneTimesTrunc_lt free h0 hu
  omega

end CudaMemTest

namespace CudaMemTest

theorem mulBillion_mod_pos (a : Nat) (h1 : 1 ≤ a)
    (h2 : a < 2 ^ 31 ∨ (2 ^ 64 - 2 ^ 31 ≤ a ∧ a < 2 ^ 64)) :
    0 < a * 1000000000 % 2 ^ 64 := by
  rcases Nat.eq_zero_or_pos (a * 1000000000 % 2 ^ 64) with h0 | h0
  · exfalso
    have hdvd : (2 ^ 64 : Nat) ∣ a * 1000000000 := Nat.dvd_of_mod_eq_zero h0
    have h59 : (2 : Nat) ^ 64 = 2 ^ 9 * 2 ^ 55 := by norm_num
    have hfac : a * 1000000000 = 2 ^ 9 * (a * 1953125) := by
      have h9 : (1000000000 : Nat) = 2 ^ 9 * 1953125 := by norm_num
      rw [h9]; ring
    rw [h59, hfac] at hdvd
    have hmul : (2 ^ 55 : Nat) ∣ a * 1953125 :=
      (Nat.mul_dvd_mul_iff_left (by norm_num : 0 < (2 : Nat) ^ 9)).mp hdvd
    have hcop : Nat.Coprime (2 ^ 55) 1953125 := by
      have h5 : (1953125 : Nat) = 5 ^ 9 := by norm_num
      have hcop2 : Nat.Coprime 2 5 :=
        (Nat.coprime_primes Nat.prime_two (by norm_num)).mpr (by norm_num)
      rw [h5]
      exact Nat.Coprime.pow 55 9 hcop2
    have h3 : (2 ^ 55 : Nat) ∣ a := hcop.dvd_of_dvd_mul_right hmul
    obtain ⟨k, hk⟩ := h3
    have e55 : (2 : Nat) ^ 55 = 36028797018963968 := by norm_num
    have e31 : (2 : Nat) ^ 31 = 2147483648 := by norm_num
    have e64 : (2 : Nat) ^ 64 = 18446744073709551616 := by norm_num
    rw [e55] at hk
    rw [e31, e64] at h2
    clear hdvd hmul hcop h59 hfac h0
    omega
  · exact h0

theorem sizeOfGb_pos (a0 : Nat)
    (h : a0 < 2 ^ 31 ∨ (2 ^ 64 - 2 ^ 31 ≤ a0 ∧ a0 < 2 ^ 64)) :
    0 < sizeOfGb a0 := by
  unfold sizeOfGb
  split_ifs with h0
  · exact mulBillion_mod_pos 1 (le_refl 1) (Or.inl (by norm_num))
  · exact mulBillion_mod_pos a0 (by omega) h

theorem intToSize_range (gb : Int) (hlo : -(2 ^ 31) ≤ gb) (hhi : gb < 2 ^ 31) :
    intToSize gb < 2 ^ 31 ∨ (2 ^ 64 - 2 ^ 31 ≤ intToSize gb ∧ intToSize gb < 2 ^ 64) := by
  unfold intToSize
  norm_num at hlo hhi ⊢
  omega

end CudaMemTest

namespace CudaMemTest

/-- C1 (amended). Allocation clamp law as the code computes it: for every
free-memory snapshot `0 < freeBytes < 2^64` and every parsed gigabyte
count in the `int` range, whenever the (defaulted) request exceeds the
code ceiling `freeBytes - (size_t)(0.1 * (double)freeBytes)`, the
effective allocation equals that ceiling exactly, never the raw request;
and the effective size is always at most that ceiling and strictly
positive. -/
theorem C1_clamp_law (gb : Int) (free : Nat) (hf0 : 0 < free) (hfu : free < 2 ^ 64)
    (hlo : -(2 ^ 31) ≤ gb) (hhi : gb < 2 ^ 31) :
    (max_alloc_size free < sizeOfGb (intToSize gb) →
      effectiveSize gb free = max_alloc_size free) ∧
    effectiveSize gb free ≤ max_alloc_size free ∧
    0 < effectiveSize gb free := by
  have hreq : 0 < sizeOfGb (intToSize gb) :=
    sizeOfGb_pos (intToSize gb) (intToSize_range gb hlo hhi)
  have hmax : 0 < max_alloc_size free := max_alloc_size_pos free hf0 hfu
  unfold effectiveSize clampSize
  split_ifs with h
  · exact ⟨fun _ => rfl, le_refl _, hmax⟩
  · exact ⟨fun hc => absurd hc h, Nat.le_of_not_lt h, hreq⟩

/-- C1 (counterexample). At `freeBytes = 2^60 + 1` and `requestedGb =
2000000000`, the spec trigger `requestedGb * 10^9 > 0.9 * freeBytes`
holds and the clamp fires, but the effective allocation is
`1037629354146162273`, which differs from `freeBytes - 0.1 * freeBytes`
both under the floor reading (`freeBytes - freeBytes / 10 =
1037629354146162280`) and under the exact rational reading (ten times
the effective size is not `9 * freeBytes`): the double rounding of
`(size_t)(0.1 * freeBytes)` makes the code ceiling differ from the
spec ceiling. -/
theorem C1_counterexample :
    (2000000000 : Nat) * 10 ^ 10 > 9 * (2 ^ 60 + 1) ∧
    effectiveSize 2000000000 (2 ^ 60 + 1) = 1037629354146162273 ∧
    (2 ^ 60 + 1 : Nat) - (2 ^ 60 + 1) / 10 = 1037629354146162280 ∧
    effectiveSize 2000000000 (2 ^ 60 + 1) ≠ (2 ^ 60 + 1 : Nat) - (2 ^ 60 + 1) / 10 ∧
    10 * effectiveSize 2000000000 (2 ^ 60 + 1) ≠ 9 * (2 ^ 60 + 1) := by
  refine ⟨by norm_num, ?_, by norm_num, ?_, ?_⟩ <;> decide

/-- C1 (witness). The clamp law instantiated at `requestedGb = 50`,
`freeBytes = 10^10`. -/
theorem C1_clamp_law_witness :
    (max_alloc_size (10 ^ 10) < sizeOfGb (intToSize 50) →
      effectiveSize 50 (10 ^ 10) = max_alloc_size (10 ^ 10)) ∧
    effectiveSize 50 (10 ^ 10) ≤ max_alloc_size (10 ^ 10) ∧
    0 < effectiveSize 50 (10 ^ 10) :=
  C1_clamp_law 50 (10 ^ 10) (by norm_num) (by norm_num) (by norm_num) (by norm_num)

end CudaMemTest

namespace CudaMemTest

theorem countLeading_replicate_append (d : Nat) (c : Char) (rest : List Char)
    (hc : c ≠ '-') :
    countLeading '-' (List.replicate d '-' ++ (c :: rest)) = d := by
  induction d with
  | zero => simp [countLeading, hc]
  | succ n ih => simp [List.replicate_succ, countLeading, ih]

theorem checkCmdLineFlag_help_token (args : List (List Char)) (d : Nat) (w : List Char)
    (hmem : (List.replicate d '-' ++ w) ∈ args)
    (hw : w.map Char.toLower = "help".toList) :
    checkCmdLineFlag args "help".toList = true := by
  have hH : "help".toList = ['h', 'e', 'l', 'p'] := rfl
  rw [hH] at hw
  rcases w with _ | ⟨a, _ | ⟨b, _ | ⟨c, _ | ⟨e, _ | ⟨f, r⟩⟩⟩⟩⟩ <;> simp at hw
  obtain ⟨h1, h2, h3, h4⟩ := hw
  have ha : a ≠ '-' := by intro h; rw [h] at h1; exact absurd h1 (by decide)
  have haE : a ≠ '=' := by intro h; rw [h] at h1; exact absurd h1 (by decide)
  have hbE : b ≠ '=' := by intro h; rw [h] at h2; exact absurd h2 (by decide)
  have hcE : c ≠ '=' := by intro h; rw [h] at h3; exact absurd h3 (by decide)
  have heE : e ≠ '=' := by intro h; rw [h] at h4; exact absurd h4 (by decide)
  have hcnt : countLeading '-' (List.replicate d '-' ++ [a, b, c, e]) = d :=
    countLeading_replicate_append d a [b, c, e] ha
  have hlen : (List.replicate d '-' ++ [a, b, c, e]).length = d + 4 := by simp
  have hsrd : stringRemoveDelimiter '-' (List.replicate d '-' ++ [a, b, c, e]) = d := by
    simp only [stringRemoveDelimiter]
    rw [hcnt, hlen, if_neg (by omega)]
  have hdrop : (List.replicate d '-' ++ [a, b, c, e]).drop d = [a, b, c, e] := by
    simp
  have hidx : indexOfEq [a, b, c, e] = none := by
    simp [indexOfEq, haE, hbE, hcE, heE]
  unfold checkCmdLineFlag
  apply List.any_eq_true.mpr
  refine ⟨List.replicate d '-' ++ [a, b, c, e], hmem, ?_⟩
  simp only [hsrd, hdrop, hidx, strncaseEq, hH]
  simp [h1, h2, h3, h4]

theorem checkCmdLineFlag_question (args : List (List Char)) (hmem : ['?'] ∈ args) :
    checkCmdLineFlag args "?".toList = true := by
  unfold checkCmdLineFlag
  apply List.any_eq_true.mpr
  exact ⟨['?'], hmem, by decide⟩

/-- C3 (amended). Help short-circuit as the code implements it: any
argument token made of leading `-` delimiters followed by a
case-insensitive spelling of `help`, and the bare token `?`, cause usage
output, exit 0 and no device interaction; but a delimited `?` (such as
`-?`) is NOT recognized as the help flag — on its own the run still
prints usage and exits 0 through the no-device path. -/
theorem C3_help_shortcircuit :
    (∀ (env : CudaEnv) (args : List (List Char)) (d : Nat) (w : List Char),
        (List.replicate d '-' ++ w) ∈ args →
        w.map Char.toLower = "help".toList →
        runMain env args =
          ⟨0, [OutLine.toolBanner, OutLine.usageDeviceComma, OutLine.usageAlloc], [], []⟩) ∧
    (∀ (env : CudaEnv) (args : List (List Char)), ['?'] ∈ args →
        runMain env args =
          ⟨0, [OutLine.toolBanner, OutLine.usageDeviceComma, OutLine.usageAlloc], [], []⟩) ∧
    checkCmdLineFlag (argv ["-?"]) "?".toList = false ∧
    (∀ env : CudaEnv, runMain env (argv ["-?"]) =
        ⟨0, [OutLine.toolBanner, OutLine.usageDevice, OutLine.usageAlloc], [], []⟩) := by
  refine ⟨?_, ?_, by decide, ?_⟩
  · intro env args d w hmem hw
    have h : checkCmdLineFlag args ['h', 'e', 'l', 'p'] = true :=
      checkCmdLineFlag_help_token args d w hmem hw
    simp [runMain, h]
  · intro env args hmem
    have h : checkCmdLineFlag args ['?'] = true :=
      checkCmdLineFlag_question args hmem
    simp [runMain, h]
  · intro env
    have h1 : checkCmdLineFlag (argv ["-?"]) ['h', 'e', 'l', 'p'] = false := by decide
    have h2 : checkCmdLineFlag (argv ["-?"]) ['?'] = false := by decide
    have h3 : checkCmdLineFlag (argv ["-?"]) ['d', 'e', 'v', 'i', 'c', 'e'] = false := by decide
    simp [runMain, h1, h2, h3]

/-- C3 (counterexample). The argument vector `["-?", "--device=0"]`
contains the flag `-?`, yet the program does not short-circuit to usage:
it attempts device selection (and the full diagnostic). -/
theorem C3_counterexample :
    (runMain envOK (argv ["-?", "--device=0"])).steps.head? = some (Step.setDevice 0) ∧
    (runMain envOK (argv ["-?", "--device=0"])).steps ≠ [] := by
  refine ⟨?_, ?_⟩ <;> decide

/-- C3 (witness). The amended help law instantiated at the concrete
vector `["--HELP", "--device=0"]`: usage, exit 0, no device interaction
even though a device flag follows. -/
theorem C3_help_shortcircuit_witness :
    runMain envOK (argv ["--HELP", "--device=0"]) =
      ⟨0, [OutLine.toolBanner, OutLine.usageDeviceComma, OutLine.usageAlloc], [], []⟩ :=
  C3_help_shortcircuit.1 envOK (argv ["--HELP", "--device=0"]) 2 "HELP".toList
    (by decide) (by decide)

end CudaMemTest

namespace CudaMemTest

/-- C4. Fail-fast on device selection: when the device flag is present
(and no help flag short-circuits) and device selection fails, the
program prints the invalid-device message, exits with code 1, and the
only runtime call ever attempted is the device selection itself — in
particular no allocation is attempted. -/
theorem C4_device_failure_fatal (env : CudaEnv) (args : List (List Char))
    (hhelp : checkCmdLineFlag args ['h', 'e', 'l', 'p'] = false)
    (hq : checkCmdLineFlag args ['?'] = false)
    (hdev : checkCmdLineFlag args ['d', 'e', 'v', 'i', 'c', 'e'] = true)
    (hset : env.setDeviceOk (getCmdLineArgumentInt args ['d', 'e', 'v', 'i', 'c', 'e']) = false) :
    runMain env args =
      ⟨1, [OutLine.invalidDevice], [],
        [Step.setDevice (getCmdLineArgumentInt args ['d', 'e', 'v', 'i', 'c', 'e'])]⟩ ∧
    OutLine.invalidDevice.render = "Invalid device id or device already in use" ∧
    ∀ n, Step.malloc n ∉ (runMain env args).steps := by
  have hmain : runMain env args =
      ⟨1, [OutLine.invalidDevice], [],
        [Step.setDevice (getCmdLineArgumentInt args ['d', 'e', 'v', 'i', 'c', 'e'])]⟩ := by
    simp [runMain, hhelp, hq, hdev, runDiag, hset]
  refine ⟨hmain, rfl, ?_⟩
  intro n
  rw [hmain]
  simp

/-- C4 (witness). Instantiated at `["--device=99"]` in an environment
where device selection fails. -/
theorem C4_device_failure_fatal_witness :
    runMain envBadDevice (argv ["--device=99"]) =
      ⟨1, [OutLine.invalidDevice], [],
        [Step.setDevice (getCmdLineArgumentInt (argv ["--device=99"]) ['d', 'e', 'v', 'i', 'c', 'e'])]⟩ ∧
    OutLine.invalidDevice.render = "Invalid device id or device already in use" ∧
    ∀ n, Step.malloc n ∉ (runMain envBadDevice (argv ["--device=99"])).steps :=
  C4_device_failure_fatal envBadDevice (argv ["--device=99"])
    (by decide) (by decide) (by decide) (by decide)

/-- C5. Memory-query failure is non-fatal: when device selection
succeeds but the free/total memory query fails, no memory-report line is
printed, and the run still computes the clamped size and attempts the
allocation. -/
theorem C5_memquery_nonfatal (env : CudaEnv) (args : List (List Char))
    (hhelp : checkCmdLineFlag args ['h', 'e', 'l', 'p'] = false)
    (hq : checkCmdLineFlag args ['?'] = false)
    (hdev : checkCmdLineFlag args ['d', 'e', 'v', 'i', 'c', 'e'] = true)
    (hset : env.setDeviceOk (getCmdLineArgumentInt args ['d', 'e', 'v', 'i', 'c', 'e']) = true)
    (hmem : env.memInfoOk = false) :
    (∀ f t, OutLine.memReport f t ∉ (runMain env args).stdout) ∧
    Step.malloc (clampSize (requestedPre args) (env.memInfoFree % 2 ^ 64))
      ∈ (runMain env args).steps := by
  have hmain : runMain env args =
      runDiag env args (getCmdLineArgumentInt args ['d', 'e', 'v', 'i', 'c', 'e']) := by
    simp [runMain, hhelp, hq, hdev]
  rw [hmain]
  simp only [runDiag, hset, hmem, if_true, if_false, Bool.false_eq_true, reduceIte]
  constructor
  · intro f t
    split_ifs <;> simp
  · split_ifs <;> simp

end CudaMemTest

namespace CudaMemTest

theorem getLast_append_singleton {α : Type} (l : List α) (a : α) :
    (l ++ [a]).getLast? = some a := by
  rw [List.getLast?_concat]

/-- C2. Exit-code and console contract: every run exits 0 or 1; the
help path and the no-device usage path exit 0; after a device flag, a
failed device selection exits 1; a failed allocation, fill or free exits
1 with exactly the corresponding error line on the error stream; a fully
passing diagnostic exits 0 with `passed` as the final stdout line and an
empty error stream; and the rendered texts are exactly the literal
strings of the C source. -/
theorem C2_exit_console_contract (env : CudaEnv) (args : List (List Char)) :
    ((runMain env args).exit = 0 ∨ (runMain env args).exit = 1) ∧
    ((checkCmdLineFlag args ['h', 'e', 'l', 'p'] = true ∨
        checkCmdLineFlag args ['?'] = true) → (runMain env args).exit = 0) ∧
    (checkCmdLineFlag args ['d', 'e', 'v', 'i', 'c', 'e'] = false →
      (runMain env args).exit = 0) ∧
    (checkCmdLineFlag args ['h', 'e', 'l', 'p'] = false →
     checkCmdLineFlag args ['?'] = false →
     checkCmdLineFlag args ['d', 'e', 'v', 'i', 'c', 'e'] = true →
      (env.setDeviceOk (getCmdLineArgumentInt args ['d', 'e', 'v', 'i', 'c', 'e']) = false →
        (runMain env args).exit = 1) ∧
      (env.setDeviceOk (getCmdLineArgumentInt args ['d', 'e', 'v', 'i', 'c', 'e']) = true →
        (env.mallocOk (clampSize (requestedPre args) (env.memInfoFree % 2 ^ 64)) = false →
          (runMain env args).exit = 1 ∧
          (runMain env args).stderr = [ErrLine.allocFail env.mallocErrDesc]) ∧
        (env.mallocOk (clampSize (requestedPre args) (env.memInfoFree % 2 ^ 64)) = true →
         env.memsetOk = false →
          (runMain env args).exit = 1 ∧
          (runMain env args).stderr = [ErrLine.fillFail env.memsetErrDesc]) ∧
        (env.mallocOk (clampSize (requestedPre args) (env.memInfoFree % 2 ^ 64)) = true →
         env.memsetOk = true → env.freeOk = false →
          (runMain env args).exit = 1 ∧
          (runMain env args).stderr = [ErrLine.freeFail env.freeErrDesc]) ∧
        (env.mallocOk (clampSize (requestedPre args) (env.memInfoFree % 2 ^ 64)) = true →
         env.memsetOk = true → env.freeOk = true →
          (runMain env args).exit = 0 ∧
          (runMain env args).stdout.getLast? = some OutLine.passed ∧
          (runMain env args).stderr = []))) ∧
    OutLine.passed.render = "CUDA memory test PASSED" ∧
    (∀ d, (ErrLine.allocFail d).render = "Test failed (error code " ++ d ++ ")!") ∧
    (∀ d, (ErrLine.fillFail d).render = "Test failed in setting mem(error code " ++ d ++ ")!") ∧
    (∀ d, (ErrLine.freeFail d).render =
      "Failed to free device vector A (error code " ++ d ++ ")!") := by
  have hexit : (runMain env args).exit = 0 ∨ (runMain env args).exit = 1 := by
    unfold runMain runDiag
    split_ifs <;> simp <;> split_ifs <;> simp
  refine ⟨hexit, ?_, ?_, ?_, rfl, fun d => rfl, fun d => rfl, fun d => rfl⟩
  · intro h
    rcases h with h | h <;> simp [runMain, h]
  · intro hdev
    by_cases hh : checkCmdLineFlag args ['h', 'e', 'l', 'p'] = true
    · simp [runMain, hh]
    · by_cases hqq : checkCmdLineFlag args ['?'] = true
      · simp [runMain, hqq]
      · simp [runMain, hh, hqq, hdev]
  · intro hh hq hdev
    have hmain : runMain env args =
        runDiag env args (getCmdLineArgumentInt args ['d', 'e', 'v', 'i', 'c', 'e']) := by
      simp [runMain, hh, hq, hdev]
    rw [hmain]
    constructor
    · intro hset
      simp [runDiag, hset]
    · intro hset
      refine ⟨?_, ?_, ?_, ?_⟩
      · intro hm
        have hm2 : env.mallocOk
            (clampSize (requestedPre args) (env.memInfoFree % 18446744073709551616)) = false := hm
        simp [runDiag, hset, hm2]
      · intro hm hms
        have hm2 : env.mallocOk
            (clampSize (requestedPre args) (env.memInfoFree % 18446744073709551616)) = true := hm
        simp [runDiag, hset, hm2, hms]
      · intro hm hms hf
        have hm2 : env.mallocOk
            (clampSize (requestedPre args) (env.memInfoFree % 18446744073709551616)) = true := hm
        simp [runDiag, hset, hm2, hms, hf]
      · intro hm hms hf
        have hm2 : env.mallocOk
            (clampSize (requestedPre args) (env.memInfoFree % 18446744073709551616)) = true := hm
        refine ⟨?_, ?_, ?_⟩ <;>
          simp [runDiag, hset, hm2, hms, hf, getLast_append_singleton]

/-- C2 (witness). The contract instantiated at a concrete passing run. -/
theorem C2_exit_console_contract_witness :
    (runMain envOK (argv ["--device=0"])).exit = 0 ∨
    (runMain envOK (argv ["--device=0"])).exit = 1 :=
  (C2_exit_console_contract envOK (argv ["--device=0"])).1

end CudaMemTest

namespace CudaMemTest

/-- C5 (witness). Instantiated at `["--device=0"]` with a failed memory
query leaving garbage 12345 in `free_memory`. -/
theorem C5_memquery_nonfatal_witness :
    (∀ f t, OutLine.memReport f t ∉ (runMain (envMemFail 12345) (argv ["--device=0"])).stdout) ∧
    Step.malloc (clampSize (requestedPre (argv ["--device=0"]))
        ((envMemFail 12345).memInfoFree % 2 ^ 64))
      ∈ (runMain (envMemFail 12345) (argv ["--device=0"])).steps :=
  C5_memquery_nonfatal (envMemFail 12345) (argv ["--device=0"])
    (by decide) (by decide) (by decide) (by decide) (by decide)

theorem foldl_getIntStep_no_match (ref : List Char) :
    ∀ (args : List (List Char)) (acc : Bool × Int),
      (∀ arg ∈ args,
        strncaseEq (arg.drop (stringRemoveDelimiter '-' arg)) ref ref.length = false) →
      args.foldl (getIntStep ref) acc = acc := by
  intro args
  induction args with
  | nil => intro acc _; rfl
  | cons a as ih =>
    intro acc h
    have ha := h a (List.mem_cons_self a as)
    have hstep : getIntStep ref acc a = acc := by
      simp [getIntStep, ha]
    rw [List.foldl_cons, hstep]
    exact ih acc (fun arg hm => h arg (List.mem_cons_of_mem a hm))

/-- C6. Integer-value extraction contract of `getCmdLineArgumentInt`:
`["--alloc_mem_gb=5"]` yields 5; `["--alloc_mem_gb"]` alone yields 0;
when no argument prefix-matches the flag name the function returns 0;
and the concatenated form `["--device3"]` yields the trailing numeral 3
for the name `device`. -/
theorem C6_int_extraction :
    getCmdLineArgumentInt (argv ["--alloc_mem_gb=5"]) "alloc_mem_gb".toList = 5 ∧
    getCmdLineArgumentInt (argv ["--alloc_mem_gb"]) "alloc_mem_gb".toList = 0 ∧
    (∀ args : List (List Char),
      (∀ arg ∈ args,
        strncaseEq (arg.drop (stringRemoveDelimiter '-' arg)) "alloc_mem_gb".toList
          ("alloc_mem_gb".toList).length = false) →
      getCmdLineArgumentInt args "alloc_mem_gb".toList = 0) ∧
    getCmdLineArgumentInt (argv ["--device3"]) "device".toList = 3 := by
  refine ⟨by decide, by decide, ?_, by decide⟩
  intro args h
  unfold getCmdLineArgumentInt
  rw [foldl_getIntStep_no_match "alloc_mem_gb".toList args (false, -1) h]
  simp

/-- C6 (witness). A vector in which the flag is never found yields 0. -/
theorem C6_int_extraction_witness :
    getCmdLineArgumentInt (argv ["--device=1"]) "alloc_mem_gb".toList = 0 :=
  C6_int_extraction.2.2.1 (argv ["--device=1"]) (by decide)

/-- C7. Default law: with the `alloc_mem_gb` flag present but carrying
value 0, and with the flag absent, the requested size before clamping is
the same 1 decimal gigabyte (1,000,000,000 bytes). -/
theorem C7_default_law :
    (∀ args : List (List Char),
        checkCmdLineFlag args "alloc_mem_gb".toList = true →
        getCmdLineArgumentInt args "alloc_mem_gb".toList = 0 →
        requestedPre args = 1000000000) ∧
    (∀ args : List (List Char),
        checkCmdLineFlag args "alloc_mem_gb".toList = false →
        requestedPre args = 1000000000) := by
  constructor
  · intro args hflag hval
    unfold requestedPre
    rw [hval] at *
    norm_num [hflag, intToSize, sizeOfGb]
  · intro args hflag
    have hflag2 : checkCmdLineFlag args
        ['a', 'l', 'l', 'o', 'c', '_', 'm', 'e', 'm', '_', 'g', 'b'] = false := hflag
    simp [requestedPre, hflag2]

/-- C7 (witness). `["--alloc_mem_gb=0"]` (present with value 0) and `[]`
(absent) both yield the 1 GB default request. -/
theorem C7_default_law_witness :
    requestedPre (argv ["--alloc_mem_gb=0"]) = 1000000000 ∧
    requestedPre (argv []) = 1000000000 :=
  ⟨C7_default_law.1 (argv ["--alloc_mem_gb=0"]) (by decide) (by decide),
   C7_default_law.2 (argv []) (by decide)⟩

/-- C8. Flag-presence insensitivity: `["--Device=2"]`, `["-device=2"]`
and `["---DEVICE=2"]` all report the `device` flag present. -/
theorem C8_flag_insensitivity :
    checkCmdLineFlag (argv ["--Device=2"]) "device".toList = true ∧
    checkCmdLineFlag (argv ["-device=2"]) "device".toList = true ∧
    checkCmdLineFlag (argv ["---DEVICE=2"]) "device".toList = true := by
  refine ⟨?_, ?_, ?_⟩ <;> decide

/-- C9. Exact-length matching: `["--device3"]` does not report the
`device` flag present, so the program takes the no-device usage path and
exits 0 without any runtime call — device 3 is never selected. -/
theorem C9_concatenated_flag_absent :
    checkCmdLineFlag (argv ["--device3"]) "device".toList = false ∧
    (∀ env : CudaEnv, runMain env (argv ["--device3"]) =
      ⟨0, [OutLine.toolBanner, OutLine.usageDevice, OutLine.usageAlloc], [], []⟩) := by
  refine ⟨by decide, ?_⟩
  intro env
  have h1 : checkCmdLineFlag (argv ["--device3"]) ['h', 'e', 'l', 'p'] = false := by decide
  have h2 : checkCmdLineFlag (argv ["--device3"]) ['?'] = false := by decide
  have h3 : checkCmdLineFlag (argv ["--device3"]) ['d', 'e', 'v', 'i', 'c', 'e'] = false := by decide
  simp [runMain, h1, h2, h3]

/-- C9 (witness). The usage result at a concrete environment. -/
theorem C9_concatenated_flag_absent_witness :
    runMain envOK (argv ["--device3"]) =
      ⟨0, [OutLine.toolBanner, OutLine.usageDevice, OutLine.usageAlloc], [], []⟩ :=
  C9_concatenated_flag_absent.2 envOK

/-- C10. `["--device"]` (flag with no value): the flag is reported
present, the extracted value is 0, and when selecting device 0 succeeds
the run proceeds with the full diagnostic (device selection then memory
query first, an allocation attempted, no usage banner printed). -/
theorem C10_device_flag_no_value :
    checkCmdLineFlag (argv ["--device"]) "device".toList = true ∧
    getCmdLineArgumentInt (argv ["--device"]) "device".toList = 0 ∧
    (∀ env : CudaEnv, env.setDeviceOk 0 = true →
      (runMain env (argv ["--device"])).steps.take 2 = [Step.setDevice 0, Step.memGetInfo] ∧
      (∃ n, Step.malloc n ∈ (runMain env (argv ["--device"])).steps) ∧
      OutLine.toolBanner ∉ (runMain env (argv ["--device"])).stdout) := by
  refine ⟨by decide, by decide, ?_⟩
  intro env hset
  have h1 : checkCmdLineFlag (argv ["--device"]) ['h', 'e', 'l', 'p'] = false := by decide
  have h2 : checkCmdLineFlag (argv ["--device"]) ['?'] = false := by decide
  have h3 : checkCmdLineFlag (argv ["--device"]) ['d', 'e', 'v', 'i', 'c', 'e'] = true := by decide
  have h4 : getCmdLineArgumentInt (argv ["--device"]) ['d', 'e', 'v', 'i', 'c', 'e'] = 0 := by decide
  have h5 : checkCmdLineFlag (argv ["--device"])
      ['a', 'l', 'l', 'o', 'c', '_', 'm', 'e', 'm', '_', 'g', 'b'] = false := by decide
  have hmain : runMain env (argv ["--device"]) = runDiag env (argv ["--device"]) 0 := by
    simp [runMain, h1, h2, h3, h4]
  rw [hmain]
  refine ⟨?_, ?_, ?_⟩ <;>
    (simp only [runDiag, hset, h5]; split_ifs <;> simp)

/-- C10 (witness). Instantiated at the all-success environment. -/
theorem C10_device_flag_no_value_witness :
    (runMain envOK (argv ["--device"])).steps.take 2 = [Step.setDevice 0, Step.memGetInfo] ∧
    (∃ n, Step.malloc n ∈ (runMain envOK (argv ["--device"])).steps) ∧
    OutLine.toolBanner ∉ (runMain envOK (argv ["--device"])).stdout :=
  C10_device_flag_no_value.2.2 envOK (by decide)

end CudaMemTest
